import Mathlib

/-!
Shallow embedding of the proxy-mediated job dispatch pipeline
(`scripts/executor.py`, `scripts/booster.py`, `scripts/signal_handler.py`
of phanen/bilibili-viewcount-booster).

Conventions of the embedding:
* wall-clock timestamps (`datetime.now()`, `datetime.now().timestamp()`)
  are integer parameters threaded through each operation;
* the outcome of an external HTTP call is an input of the operation
  (`requestOk : Bool` for a POST that either returns or raises,
  `fetched : Option Int` for a GET that either yields a view count or
  raises);
* a Python dict `{proxy: last_used_timestamp}` is an insertion-ordered
  association list with in-place overwrite (`dictSet`) and defaulted
  lookup (`dictGet`, default `0`, mirroring `.get(proxy, 0)`).
-/

/-- Python `d.get(k, 0)` on a `{str: float}` dict (timestamps as `Int`). -/
def dictGet (d : List (String × Int)) (k : String) : Int :=
  match d with
  | [] => 0
  | (k', v) :: rest => if k' = k then v else dictGet rest k

/-- Python `d[k] = v`: overwrite in place if present, else append. -/
def dictSet (d : List (String × Int)) (k : String) (v : Int) : List (String × Int) :=
  match d with
  | [] => [(k, v)]
  | (k', v') :: rest => if k' = k then (k, v) :: rest else (k', v') :: dictSet rest k v

/-- Python `k in d`. -/
def dictMem (d : List (String × Int)) (k : String) : Bool :=
  d.any (fun x => x.1 == k)

/-- State of `VideoBooster` (`executor.py`, `__init__`).  `info_dict` is the
payload for the external POST and is never inspected by the component, so it
is kept as an uninterpreted string.  `lock` is not modeled: operations are
the atomic units. -/
structure VideoBooster where
  bv_id : String
  info_dict : String
  initial_view : Int
  target_increment : Int
  cooldown : Int
  timeout : Int
  current_view : Int
  hits : Nat
  proxy_cooldowns : List (String × Int)
  completed : Bool
  start_time : Int
  end_time : Option Int
deriving Repr, DecidableEq, Inhabited

/-- `VideoBooster.__init__(bv_id, info_dict, initial_view, target_increment,
cooldown=300, timeout=5)`; `now` is the `datetime.now()` captured into
`start_time`. -/
def mkVideoBooster (bv_id info_dict : String) (initial_view target_increment : Int)
    (cooldown timeout : Int) (now : Int) : VideoBooster :=
  { bv_id := bv_id
    info_dict := info_dict
    initial_view := initial_view
    target_increment := target_increment
    cooldown := cooldown
    timeout := timeout
    current_view := initial_view
    hits := 0
    proxy_cooldowns := []
    completed := false
    start_time := now
    end_time := none }

/-- `VideoBooster.can_use_proxy` (executor.py:86-91):
`last_used = self.proxy_cooldowns.get(proxy, 0)`;
`return (now - last_used) >= self.cooldown`. -/
def can_use_proxy (s : VideoBooster) (proxy : String) (now : Int) : Bool :=
  let last_used := dictGet s.proxy_cooldowns proxy
  decide (s.cooldown ≤ now - last_used)

/-- `VideoBooster.use_proxy` (executor.py:93-121).  `now` is the clock read
inside `can_use_proxy`; `requestOk` tells whether `requests.post` returned
(rather than raised); `tStamp` is the second clock read,
`self.proxy_cooldowns[proxy] = datetime.now().timestamp()`. -/
def use_proxy (s : VideoBooster) (proxy : String) (now : Int) (requestOk : Bool)
    (tStamp : Int) : Bool × VideoBooster :=
  if !(can_use_proxy s proxy now) then
    (false, s)
  else if requestOk then
    (true, { s with
              hits := s.hits + 1
              proxy_cooldowns := dictSet s.proxy_cooldowns proxy tStamp })
  else
    (false, s)

/-- `VideoBooster.update_view_count` (executor.py:123-135).  `fetched` is
`some v` when the GET plus JSON parse yields view count `v`, `none` when any
step raises; on the exception path the stored view is returned unchanged. -/
def update_view_count (s : VideoBooster) (fetched : Option Int) : Int × VideoBooster :=
  match fetched with
  | some v => (v, { s with current_view := v })
  | none => (s.current_view, s)

/-- The condition computed by `is_complete` (executor.py:140):
`(self.current_view - self.initial_view) >= self.target_increment`. -/
def is_done (s : VideoBooster) : Bool :=
  decide (s.target_increment ≤ s.current_view - s.initial_view)

/-- `VideoBooster.is_complete` (executor.py:137-144): returns the live
condition, and on the first true evaluation stamps `end_time` (with the
clock read `now`) and sets the `completed` latch. -/
def is_complete (s : VideoBooster) (now : Int) : Bool × VideoBooster :=
  let d := is_done s
  if d && !s.completed then
    (d, { s with end_time := some now, completed := true })
  else
    (d, s)

/-- The dictionary returned by `get_progress` (executor.py:146-164). -/
structure ProgressReport where
  bv_id : String
  current : Int
  initial : Int
  increment : Int
  target : Int
  hits : Nat
  completed : Bool
  elapsed : Int
deriving Repr, DecidableEq

/-- `VideoBooster.get_progress` (executor.py:146-164).  `now` is the clock
read of the `elif self.completed` branch. -/
def get_progress (s : VideoBooster) (now : Int) : ProgressReport :=
  let elapsed : Int :=
    match s.end_time with
    | some e => e - s.start_time
    | none => if s.completed then now - s.start_time else 0
  { bv_id := s.bv_id
    current := s.current_view
    initial := s.initial_view
    increment := s.current_view - s.initial_view
    target := s.target_increment
    hits := s.hits
    completed := s.completed
    elapsed := elapsed }

/-- One mutating operation on a `VideoBooster`, as invoked by the dispatcher
workers (`use_proxy`) and the monitor loop (`update_view_count`,
`is_complete`); `get_progress` reads without mutating and needs no entry. -/
inductive BoosterOp where
  | attempt (proxy : String) (now : Int) (requestOk : Bool) (tStamp : Int)
  | refresh (fetched : Option Int)
  | check (now : Int)
deriving Repr, DecidableEq

def applyOp (s : VideoBooster) : BoosterOp → VideoBooster
  | .attempt p t ok t2 => (use_proxy s p t ok t2).2
  | .refresh f => (update_view_count s f).2
  | .check t => (is_complete s t).2

def applyOps (s : VideoBooster) (l : List BoosterOp) : VideoBooster :=
  l.foldl applyOp s

/-- Invariant relating the latch and the end timestamp: `end_time` is only
ever written together with `completed := true`, so a job with no `end_time`
is not completed. -/
def endTimeInv (s : VideoBooster) : Prop :=
  s.end_time = none → s.completed = false

/-- State of `JobDispatcher` (executor.py:167-177).  The validated queue is
a FIFO list (head is the next `get`); `video_boosters` is the shared job
list, mutated through `is_complete` and `use_proxy`; `num_workers`,
`stop_event` and the lock are not state the claims touch. -/
structure JobDispatcher where
  validated_queue : List String
  video_boosters : List VideoBooster
  round_robin_index : Nat
deriving Repr, Inhabited

/-- The booster list after the comprehension of `_get_next_video`
(executor.py:210) ran `is_complete()` on every element (latching side
effect on the shared objects). -/
def latchAll (d : JobDispatcher) (now : Int) : List VideoBooster :=
  d.video_boosters.map (fun b => (is_complete b now).2)

/-- The indices (into `video_boosters`) of
`incomplete_videos = [v for v in self.video_boosters if not v.is_complete()]`
(executor.py:210); positions are kept so that aliasing of the selected
shared object can be expressed. -/
def incompleteIdxs (d : JobDispatcher) (now : Int) : List Nat :=
  (List.range d.video_boosters.length).filter
    (fun i => !(is_complete (d.video_boosters.getD i default) now).1)

/-- `JobDispatcher._get_next_video` (executor.py:207-218): if no incomplete
video, `None`; else `self.round_robin_index %= len(incomplete_videos)`,
pick that element, then `round_robin_index += 1`.  The selected booster is
returned as its index into the latched list (the Python code returns the
shared object itself).  `now` is the clock used by the latching. -/
def get_next_video (d : JobDispatcher) (now : Int) : Option Nat × JobDispatcher :=
  if (incompleteIdxs d now).length = 0 then
    (none, { d with video_boosters := latchAll d now })
  else
    (some ((incompleteIdxs d now).getD
            (d.round_robin_index % (incompleteIdxs d now).length) 0),
     { d with
        video_boosters := latchAll d now
        round_robin_index := d.round_robin_index % (incompleteIdxs d now).length + 1 })

/-- What one pass of the `dispatch_worker` loop body did
(executor.py:179-205). -/
inductive CycleOutcome where
  | empty
  | noVideo
  | attempted (success : Bool)
deriving Repr, DecidableEq

/-- One iteration of `JobDispatcher.dispatch_worker` (executor.py:179-205):
pop a proxy (on `Empty`, continue); select a video; if none, push the proxy
back and `sleep(0.1)` (outcome `noVideo`); else `use_proxy` and push the
proxy back on both the success and the cooldown/error branch.  `tSel` is the
clock of the selection pass, `tCheck`/`requestOk`/`tStamp` feed
`use_proxy`. -/
def dispatch_cycle (d : JobDispatcher) (tSel tCheck : Int) (requestOk : Bool)
    (tStamp : Int) : JobDispatcher × CycleOutcome :=
  match d.validated_queue with
  | [] => (d, .empty)
  | proxy :: rest =>
    match get_next_video { d with validated_queue := rest } tSel with
    | (none, d') =>
      ({ d' with validated_queue := d'.validated_queue ++ [proxy] }, .noVideo)
    | (some i, d') =>
      let b := d'.video_boosters.getD i default
      let r := use_proxy b proxy tCheck requestOk tStamp
      ({ d' with
          video_boosters := d'.video_boosters.set i r.2
          validated_queue := d'.validated_queue ++ [proxy] }, .attempted r.1)

/-- The per-cycle inputs of `dispatch_cycle` (clock reads and the outcome of
the external POST). -/
structure CycleInput where
  tSel : Int
  tCheck : Int
  requestOk : Bool
  tStamp : Int
deriving Repr, DecidableEq

/-- Any number of consecutive dispatch cycles. -/
def dispatch_run (d : JobDispatcher) (l : List CycleInput) : JobDispatcher :=
  l.foldl (fun d i => (dispatch_cycle d i.tSel i.tCheck i.requestOk i.tStamp).1) d

/-- The dispatcher state transformer of one `_get_next_video` call. -/
def dstep (now : Int) (d : JobDispatcher) : JobDispatcher :=
  (get_next_video d now).2

/-- The job index produced by the `j`-th consecutive `_get_next_video` call
(selections serialized under the dispatcher lock). -/
def nthSelection (d : JobDispatcher) (now : Int) (j : Nat) : Option Nat :=
  (get_next_video ((dstep now)^[j] d) now).1

/-- Shared state of the `proxy_consumer` workers of the legacy single-video
pipeline (booster.py:269-276): the validated FIFO queue, the global
`successful_hits` counter and the module-level `proxy_cooldown` dict. -/
structure ConsumerState where
  validated_queue : List String
  successful_hits : Nat
  proxy_cooldown : List (String × Int)
deriving Repr, DecidableEq

/-- One iteration of `proxy_consumer` (booster.py:309-358): pop a proxy (on
`Empty`, continue); if `now - last_used < cooldown_time`, push it back and
`sleep(1)`; else POST through it — when the POST returns, bump
`successful_hits`, stamp `proxy_cooldown[proxy]` and push the proxy back;
when it raises, the `except: pass` skips the push-back and the proxy leaves
the queue. -/
def proxy_consumer_cycle (cooldown_time : Int) (s : ConsumerState) (now : Int)
    (requestOk : Bool) (tStamp : Int) : ConsumerState :=
  match s.validated_queue with
  | [] => s
  | proxy :: rest =>
    let last_used := dictGet s.proxy_cooldown proxy
    if now - last_used < cooldown_time then
      { s with validated_queue := rest ++ [proxy] }
    else if requestOk then
      { validated_queue := rest ++ [proxy]
        successful_hits := s.successful_hits + 1
        proxy_cooldown := dictSet s.proxy_cooldown proxy tStamp }
    else
      { s with validated_queue := rest }

/-- State of `ShutdownHandler` (signal_handler.py:16-44); only the
cooperative flag matters to the cancellation contract (`_original_sigint`
belongs to install/uninstall). -/
structure ShutdownHandler where
  shutdown_requested : Bool
deriving Repr, DecidableEq

/-- `ShutdownHandler.__init__`. -/
def mkShutdownHandler : ShutdownHandler :=
  { shutdown_requested := false }

/-- Result of one `_handle_signal` invocation: either the handler returned
(new state) or `sys.exit(code)` ran. -/
inductive SignalResult where
  | returned (h : ShutdownHandler)
  | exited (code : Nat)
deriving Repr, DecidableEq

/-- `ShutdownHandler._handle_signal` (signal_handler.py:32-40): with the
flag already set, `sys.exit(1)`; otherwise print, set the flag and
return. -/
def handle_signal (h : ShutdownHandler) : SignalResult :=
  if h.shutdown_requested then
    .exited 1
  else
    .returned { h with shutdown_requested := true }

/-- `ShutdownHandler.is_shutdown_requested` (signal_handler.py:42-44). -/
def is_shutdown_requested (h : ShutdownHandler) : Bool :=
  h.shutdown_requested

/-- Counter state of `ProxyValidator` (executor.py:17-24) together with the
number of workers currently between their `checked_count += 1` and the end
of their probe (`in_flight` abstracts the program counters of the 75
workers). -/
structure VState where
  checked_count : Nat
  validated_count : Nat
  in_flight : Nat
deriving Repr, DecidableEq

/-- `ProxyValidator.__init__`: both counters start at zero, no probe in
flight. -/
def VInit : VState :=
  { checked_count := 0, validated_count := 0, in_flight := 0 }

/-- Interleaved small steps of the `validate_worker` loops
(executor.py:26-47): a worker takes a candidate and runs
`checked_count += 1` under the lock; its probe then either succeeds
(`validated_count += 1`) or raises (candidate silently dropped). -/
inductive VStep : VState → VState → Prop
  | take (s : VState) :
      VStep s { checked_count := s.checked_count + 1
                validated_count := s.validated_count
                in_flight := s.in_flight + 1 }
  | probeOk (s : VState) (h : 0 < s.in_flight) :
      VStep s { checked_count := s.checked_count
                validated_count := s.validated_count + 1
                in_flight := s.in_flight - 1 }
  | probeFail (s : VState) (h : 0 < s.in_flight) :
      VStep s { checked_count := s.checked_count
                validated_count := s.validated_count
                in_flight := s.in_flight - 1 }

/-- Validator states reachable from construction by any interleaving. -/
def VReachable (s : VState) : Prop :=
  Relation.ReflTransGen VStep VInit s

/-- `ProxyValidator.get_stats` (executor.py:61-64): the
`{checked, validated}` snapshot taken under the lock. -/
def get_stats (s : VState) : Nat × Nat :=
  (s.checked_count, s.validated_count)

/-- Scenario job J1 of the spec ("baseline=0/target=1, never reaches
target"), created at time 0. -/
def jobJ1 : VideoBooster :=
  mkVideoBooster "J1" "ctx1" 0 1 300 5 0

/-- Scenario job J2 of the spec ("baseline=0/target=0, already complete at
creation"), created at time 0. -/
def jobJ2 : VideoBooster :=
  mkVideoBooster "J2" "ctx2" 0 0 300 5 0

/-- A fresh job with baseline 0 and target 1 (concrete instance used in
closed statements). -/
def c1Job : VideoBooster :=
  mkVideoBooster "BVC1" "ctx" 0 1 300 5 0

/-- `c1Job` after a refresh to view 1 and an `is_complete` call at time 3:
the latch has fired. -/
def c1Latched : VideoBooster :=
  (is_complete ((update_view_count c1Job (some 1)).2) 3).2

/-- A fresh job with baseline 0 and target 10 (concrete instance used in
closed statements). -/
def c4Job : VideoBooster :=
  mkVideoBooster "BVC4" "ctx" 0 10 300 5 0

/-- A fresh job with baseline 100 and target 50 (concrete instance used in
closed statements). -/
def c8Job : VideoBooster :=
  mkVideoBooster "BVC8" "ctx" 100 50 300 5 0

/-- A second permanently-incomplete job (baseline 0, target 5) for the
round-robin window instance. -/
def c6Job : VideoBooster :=
  mkVideoBooster "BVC6" "ctx" 0 5 300 5 0

/-! ### Helper lemmas about the dictionary embedding -/

theorem dictGet_dictSet_self (d : List (String × Int)) (k : String) (v : Int) :
    dictGet (dictSet d k v) k = v := by
  induction d with
  | nil => simp [dictGet, dictSet]
  | cons hd tl ih =>
    obtain ⟨k', v'⟩ := hd
    by_cases h : k' = k
    · subst h
      simp [dictSet, dictGet]
    · simp [dictSet, dictGet, h, ih]

theorem dictGet_of_not_mem (d : List (String × Int)) (k : String)
    (h : dictMem d k = false) : dictGet d k = 0 := by
  induction d with
  | nil => simp [dictGet]
  | cons hd tl ih =>
    obtain ⟨k', v'⟩ := hd
    simp [dictMem, List.any_cons] at h
    simp [dictGet, h.1, ih (by simpa [dictMem] using h.2)]

/-! ### Helper lemmas about `use_proxy` -/

theorem use_proxy_not_eligible (s : VideoBooster) (p : String) (now : Int)
    (ok : Bool) (t2 : Int) (h : can_use_proxy s p now = false) :
    use_proxy s p now ok t2 = (false, s) := by
  simp [use_proxy, h]

theorem use_proxy_error (s : VideoBooster) (p : String) (now t2 : Int)
    (h : can_use_proxy s p now = true) :
    use_proxy s p now false t2 = (false, s) := by
  simp [use_proxy, h]

theorem use_proxy_success (s : VideoBooster) (p : String) (now t2 : Int)
    (h : can_use_proxy s p now = true) :
    use_proxy s p now true t2 =
      (true, { s with
                hits := s.hits + 1
                proxy_cooldowns := dictSet s.proxy_cooldowns p t2 }) := by
  simp [use_proxy, h]

theorem use_proxy_fst_true (s : VideoBooster) (p : String) (now : Int)
    (ok : Bool) (t2 : Int) :
    (use_proxy s p now ok t2).1 = true ↔
      can_use_proxy s p now = true ∧ ok = true := by
  rcases hc : can_use_proxy s p now <;> rcases ok <;> simp [use_proxy, hc]

theorem use_proxy_frame (s : VideoBooster) (p : String) (now : Int)
    (ok : Bool) (t2 : Int) :
    ((use_proxy s p now ok t2).2).current_view = s.current_view ∧
    ((use_proxy s p now ok t2).2).initial_view = s.initial_view ∧
    ((use_proxy s p now ok t2).2).target_increment = s.target_increment ∧
    ((use_proxy s p now ok t2).2).cooldown = s.cooldown ∧
    ((use_proxy s p now ok t2).2).completed = s.completed ∧
    ((use_proxy s p now ok t2).2).end_time = s.end_time := by
  rcases hc : can_use_proxy s p now <;> rcases ok <;> simp [use_proxy, hc]

/-! ### Helper lemmas about `is_complete` -/

theorem is_complete_fst (s : VideoBooster) (now : Int) :
    (is_complete s now).1 = is_done s := by
  rw [is_complete]
  split <;> rfl

theorem is_complete_snd_of_completed (s : VideoBooster) (now : Int)
    (h : s.completed = true) : (is_complete s now).2 = s := by
  simp [is_complete, h]

theorem is_complete_snd_of_not_done (s : VideoBooster) (now : Int)
    (h : is_done s = false) : (is_complete s now).2 = s := by
  simp [is_complete, h]

theorem is_complete_latch (s : VideoBooster) (now : Int)
    (hd : is_done s = true) (hc : s.completed = false) :
    (is_complete s now).2 = { s with end_time := some now, completed := true } := by
  simp [is_complete, hd, hc]

theorem is_complete_snd_frame (s : VideoBooster) (now : Int) :
    ((is_complete s now).2).current_view = s.current_view ∧
    ((is_complete s now).2).initial_view = s.initial_view ∧
    ((is_complete s now).2).target_increment = s.target_increment ∧
    ((is_complete s now).2).cooldown = s.cooldown ∧
    ((is_complete s now).2).hits = s.hits := by
  rw [is_complete]
  split <;> simp

theorem is_done_is_complete_snd (s : VideoBooster) (now : Int) :
    is_done ((is_complete s now).2) = is_done s := by
  have h := is_complete_snd_frame s now
  rw [is_done, is_done, h.1, h.2.1, h.2.2.1]

/-! ### Helper lemmas about operation sequences -/

theorem applyOp_initial_view (s : VideoBooster) (op : BoosterOp) :
    (applyOp s op).initial_view = s.initial_view := by
  cases op with
  | attempt p t ok t2 => exact (use_proxy_frame s p t ok t2).2.1
  | refresh f => cases f <;> rfl
  | check t =>
    rw [applyOp]
    exact (is_complete_snd_frame s t).2.1

theorem applyOp_target_increment (s : VideoBooster) (op : BoosterOp) :
    (applyOp s op).target_increment = s.target_increment := by
  cases op with
  | attempt p t ok t2 => exact (use_proxy_frame s p t ok t2).2.2.1
  | refresh f => cases f <;> rfl
  | check t =>
    rw [applyOp]
    exact (is_complete_snd_frame s t).2.2.1

theorem applyOp_completed_latch (s : VideoBooster) (op : BoosterOp)
    (h : s.completed = true) :
    (applyOp s op).completed = true ∧ (applyOp s op).end_time = s.end_time := by
  cases op with
  | attempt p t ok t2 =>
    have hf := use_proxy_frame s p t ok t2
    exact ⟨hf.2.2.2.2.1.trans h, hf.2.2.2.2.2⟩
  | refresh f => cases f <;> exact ⟨h, rfl⟩
  | check t =>
    rw [applyOp, is_complete_snd_of_completed s t h]
    exact ⟨h, rfl⟩

theorem applyOps_latch (l : List BoosterOp) (s : VideoBooster)
    (h : s.completed = true) :
    (applyOps s l).completed = true ∧ (applyOps s l).end_time = s.end_time := by
  induction l generalizing s with
  | nil => exact ⟨h, rfl⟩
  | cons op tl ih =>
    have h1 := applyOp_completed_latch s op h
    have h2 := ih (applyOp s op) h1.1
    exact ⟨h2.1, h2.2.trans h1.2⟩

theorem applyOps_initial_view (l : List BoosterOp) (s : VideoBooster) :
    (applyOps s l).initial_view = s.initial_view := by
  induction l generalizing s with
  | nil => rfl
  | cons op tl ih => exact (ih (applyOp s op)).trans (applyOp_initial_view s op)

theorem applyOps_target_increment (l : List BoosterOp) (s : VideoBooster) :
    (applyOps s l).target_increment = s.target_increment := by
  induction l generalizing s with
  | nil => rfl
  | cons op tl ih => exact (ih (applyOp s op)).trans (applyOp_target_increment s op)

theorem applyOp_endTimeInv (s : VideoBooster) (op : BoosterOp)
    (h : endTimeInv s) : endTimeInv (applyOp s op) := by
  cases op with
  | attempt p t ok t2 =>
    intro hnone
    have hf := use_proxy_frame s p t ok t2
    have hn : (use_proxy s p t ok t2).2.end_time = none := hnone
    show (use_proxy s p t ok t2).2.completed = false
    rw [hf.2.2.2.2.1]
    exact h (hf.2.2.2.2.2.symm.trans hn)
  | refresh f => cases f <;> exact h
  | check t =>
    rw [applyOp, is_complete]
    split
    · intro hnone
      simp at hnone
    · exact h

/-! ### Claim C1 -/

/-- C1 counterexample: the claim "once `is_complete()` has returned true it
remains true for every subsequent sequence of operations including
`update_view_count` calls" is false.  For the job with baseline 0 and
target 1: after a refresh to view 1, `is_complete` returns true (and
latches), but a subsequent `update_view_count` whose fetch reports view 0
makes `is_complete` return false again, even though the `completed` flag is
still set. -/
theorem C1_counterexample :
    (is_complete ((update_view_count c1Job (some 1)).2) 3).1 = true ∧
    (is_complete ((update_view_count c1Latched (some 0)).2) 4).1 = false ∧
    ((update_view_count c1Latched (some 0)).2).completed = true := by
  refine ⟨rfl, rfl, rfl⟩

/-- C1 (amended): `is_complete()` returns true iff
`current_progress - baseline_progress >= target_delta` at the time of the
call; the `completed` flag and `end_time` are latched — set exactly once, on
the first true evaluation, and never modified by any later operation; and
the returned value stays true across any subsequent operations that do not
decrease `current_view` (a progress regression reported by
`update_view_count` can flip the returned value back to false, as the
counterexample shows). -/
theorem C1_amended_theorem :
    (∀ (s : VideoBooster) (now : Int),
      (is_complete s now).1 = true ↔
        s.target_increment ≤ s.current_view - s.initial_view) ∧
    (∀ (s : VideoBooster) (now : Int),
      s.completed = false → (is_complete s now).1 = true →
        (is_complete s now).2.completed = true ∧
        (is_complete s now).2.end_time = some now) ∧
    (∀ (s : VideoBooster) (now : Int),
      s.completed = true → (is_complete s now).2 = s) ∧
    (∀ (s : VideoBooster) (l : List BoosterOp),
      s.completed = true →
        (applyOps s l).completed = true ∧ (applyOps s l).end_time = s.end_time) ∧
    (∀ (s : VideoBooster) (l : List BoosterOp) (now now2 : Int),
      (is_complete s now).1 = true →
      s.current_view ≤ (applyOps ((is_complete s now).2) l).current_view →
      (is_complete (applyOps ((is_complete s now).2) l) now2).1 = true) := by
  refine ⟨?_, ?_, ?_, ?_, ?_⟩
  · intro s now
    rw [is_complete_fst, is_done]
    exact decide_eq_true_iff
  · intro s now hc hd
    rw [is_complete_fst] at hd
    rw [is_complete_latch s now hd hc]
    exact ⟨rfl, rfl⟩
  · intro s now hc
    exact is_complete_snd_of_completed s now hc
  · intro s l hc
    exact applyOps_latch l s hc
  · intro s l now now2 hd hmono
    rw [is_complete_fst, is_done] at hd ⊢
    rw [decide_eq_true_iff] at hd ⊢
    have hfr := is_complete_snd_frame s now
    have hi := applyOps_initial_view l ((is_complete s now).2)
    have ht := applyOps_target_increment l ((is_complete s now).2)
    rw [hi, hfr.2.1, ht, hfr.2.2.1]
    omega

/-- Witness for `C1_amended_theorem` at the concrete latched job
`c1Latched`. -/
theorem C1_witness :
    ((applyOps c1Latched [BoosterOp.refresh (some 7)]).completed = true ∧
     (applyOps c1Latched [BoosterOp.refresh (some 7)]).end_time = c1Latched.end_time) ∧
    (is_complete (applyOps ((is_complete c1Latched 5).2) []) 6).1 = true := by
  refine ⟨C1_amended_theorem.2.2.2.1 c1Latched [BoosterOp.refresh (some 7)] rfl,
          C1_amended_theorem.2.2.2.2 c1Latched [] 5 6 rfl (by decide)⟩

/-! ### Claim C2 -/

/-- C2: after a successful `use_proxy(R)` that stamped time `t2`, any
further `use_proxy(R)` on the same job at a check time `tc` with
`tc - t2 < cooldown` is rejected with no state change, and becomes eligible
again once `cooldown <= tc - t2`; a resource absent from the cooldown table
is immediately eligible (the code compares against the default stamp `0`,
so this needs `cooldown <= now`, which holds for epoch clocks); and a
success against job `i` of the shared list leaves the cooldown table of
every other job `j` untouched, so job `j` can accept the same resource
immediately. -/
theorem C2_theorem :
    (∀ (s : VideoBooster) (p : String) (t1 t2 tc t3 : Int) (ok2 : Bool),
      (use_proxy s p t1 true t2).1 = true →
      tc - t2 < s.cooldown →
        can_use_proxy ((use_proxy s p t1 true t2).2) p tc = false ∧
        use_proxy ((use_proxy s p t1 true t2).2) p tc ok2 t3 =
          (false, (use_proxy s p t1 true t2).2)) ∧
    (∀ (s : VideoBooster) (p : String) (t1 t2 tc : Int),
      (use_proxy s p t1 true t2).1 = true →
      s.cooldown ≤ tc - t2 →
        can_use_proxy ((use_proxy s p t1 true t2).2) p tc = true) ∧
    (∀ (s : VideoBooster) (p : String) (now : Int),
      dictMem s.proxy_cooldowns p = false →
      s.cooldown ≤ now →
        can_use_proxy s p now = true) ∧
    (∀ (bs : List VideoBooster) (i j : Nat) (p : String) (t1 t2 now : Int),
      j < bs.length → j ≠ i →
        ((bs.set i ((use_proxy (bs.getD i default) p t1 true t2).2)).getD j
            default).proxy_cooldowns = (bs.getD j default).proxy_cooldowns ∧
        (dictMem (bs.getD j default).proxy_cooldowns p = false →
         (bs.getD j default).cooldown ≤ now →
         can_use_proxy
           ((bs.set i ((use_proxy (bs.getD i default) p t1 true t2).2)).getD j
             default) p now = true)) := by
  have keligible : ∀ (s : VideoBooster) (p : String) (now : Int),
      dictMem s.proxy_cooldowns p = false → s.cooldown ≤ now →
      can_use_proxy s p now = true := by
    intro s p now hm hle
    rw [can_use_proxy]
    simp [dictGet_of_not_mem s.proxy_cooldowns p hm]
    omega
  have kstamp : ∀ (s : VideoBooster) (p : String) (t1 t2 tc : Int),
      (use_proxy s p t1 true t2).1 = true →
      can_use_proxy ((use_proxy s p t1 true t2).2) p tc =
        decide (s.cooldown ≤ tc - t2) := by
    intro s p t1 t2 tc hs
    have hc : can_use_proxy s p t1 = true :=
      ((use_proxy_fst_true s p t1 true t2).mp hs).1
    rw [use_proxy_success s p t1 t2 hc]
    rw [can_use_proxy]
    simp [dictGet_dictSet_self]
  have kset : ∀ (bs : List VideoBooster) (i j : Nat) (x : VideoBooster),
      j < bs.length → j ≠ i →
      (bs.set i x).getD j default = bs.getD j default := by
    intro bs i j x hj hne
    have hj' : j < (bs.set i x).length := by
      rw [List.length_set]
      exact hj
    rw [List.getD_eq_getElem bs default hj, List.getD_eq_getElem _ default hj']
    exact List.getElem_set_of_ne (fun h => hne h.symm) x hj'
  refine ⟨?_, ?_, keligible, ?_⟩
  · intro s p t1 t2 tc t3 ok2 hs hlt
    have hfalse : can_use_proxy ((use_proxy s p t1 true t2).2) p tc = false := by
      rw [kstamp s p t1 t2 tc hs]
      have hcd : (use_proxy s p t1 true t2).2.cooldown = s.cooldown :=
        (use_proxy_frame s p t1 true t2).2.2.2.1
      simp only [decide_eq_false_iff_not]
      omega
    exact ⟨hfalse, use_proxy_not_eligible _ p tc ok2 t3 hfalse⟩
  · intro s p t1 t2 tc hs hle
    rw [kstamp s p t1 t2 tc hs]
    exact decide_eq_true hle
  · intro bs i j p t1 t2 now hj hne
    rw [kset bs i j _ hj hne]
    exact ⟨rfl, keligible (bs.getD j default) p now⟩

/-- Witness for `C2_theorem`: a concrete success at stamp time 1000 makes
the proxy ineligible at 1100, and a job whose table lacks the proxy is
eligible at epoch-scale time 400. -/
theorem C2_witness :
    (can_use_proxy ((use_proxy c4Job "1.2.3.4:8080" 1000 true 1000).2)
        "1.2.3.4:8080" 1100 = false ∧
     use_proxy ((use_proxy c4Job "1.2.3.4:8080" 1000 true 1000).2)
        "1.2.3.4:8080" 1100 true 1101 =
       (false, (use_proxy c4Job "1.2.3.4:8080" 1000 true 1000).2)) ∧
    can_use_proxy c4Job "1.2.3.4:8080" 400 = true := by
  refine ⟨C2_theorem.1 c4Job "1.2.3.4:8080" 1000 1000 1100 1101 true rfl (by decide),
          C2_theorem.2.2.1 c4Job "1.2.3.4:8080" 400 rfl (by decide)⟩

/-! ### Claim C4 -/

/-- C4: `use_proxy` frame conditions — an ineligible (in-cooldown) resource
is rejected with the job state returned untouched; an eligible attempt whose
POST raises is rejected with the state untouched; only the success path
increments `hits` and stamps the cooldown table; and no path ever changes
`current_view`. -/
theorem C4_theorem :
    ∀ (s : VideoBooster) (p : String) (now : Int) (ok : Bool) (t2 : Int),
      (can_use_proxy s p now = false → use_proxy s p now ok t2 = (false, s)) ∧
      (can_use_proxy s p now = true → use_proxy s p now false t2 = (false, s)) ∧
      (can_use_proxy s p now = true →
        use_proxy s p now true t2 =
          (true, { s with
                    hits := s.hits + 1
                    proxy_cooldowns := dictSet s.proxy_cooldowns p t2 })) ∧
      (use_proxy s p now ok t2).2.current_view = s.current_view := by
  intro s p now ok t2
  exact ⟨use_proxy_not_eligible s p now ok t2,
         use_proxy_error s p now t2,
         use_proxy_success s p now t2,
         (use_proxy_frame s p now ok t2).1⟩

/-- Witness for `C4_theorem`: the fresh job rejects an in-cooldown check at
time 100 (epoch 0 default stamp, cooldown 300) untouched, and accepts at
time 1000, bumping `hits` and stamping the table. -/
theorem C4_witness :
    use_proxy c4Job "1.2.3.4:8080" 100 true 101 = (false, c4Job) ∧
    use_proxy c4Job "1.2.3.4:8080" 1000 false 1001 = (false, c4Job) ∧
    use_proxy c4Job "1.2.3.4:8080" 1000 true 1001 =
      (true, { c4Job with
                hits := c4Job.hits + 1
                proxy_cooldowns := dictSet c4Job.proxy_cooldowns "1.2.3.4:8080" 1001 }) := by
  refine ⟨(C4_theorem c4Job "1.2.3.4:8080" 100 true 101).1 rfl,
          (C4_theorem c4Job "1.2.3.4:8080" 1000 false 1001).2.1 rfl,
          (C4_theorem c4Job "1.2.3.4:8080" 1000 true 1001).2.2.1 rfl⟩

/-! ### Claim C7 -/

/-- C7: `update_view_count` on a successful fetch returns the fresh value
and overwrites only `current_view` with it; on a failed fetch it returns the
last-known-good `current_view` and leaves the whole job state — hence every
observable progress snapshot — unchanged. -/
theorem C7_theorem :
    ∀ (s : VideoBooster) (v now : Int),
      (update_view_count s (some v)).1 = v ∧
      (update_view_count s (some v)).2 = { s with current_view := v } ∧
      (update_view_count s none).1 = s.current_view ∧
      (update_view_count s none).2 = s ∧
      get_progress ((update_view_count s none).2) now = get_progress s now := by
  intro s v now
  exact ⟨rfl, rfl, rfl, rfl, rfl⟩

/-! ### Claim C8 -/

/-- C8: `get_progress` is idempotent.  The `elif self.completed` branch that
reads the wall clock is unreachable for real job states: `end_time` and
`completed` are only ever written together, so construction establishes and
every operation preserves `endTimeInv`, and under that invariant the report
— `elapsed` included — is independent of the clock read `now`, so two calls
with no mutation in between return identical dictionaries. -/
theorem C8_theorem :
    (∀ (b c : String) (iv tg cd tm t0 : Int),
      endTimeInv (mkVideoBooster b c iv tg cd tm t0)) ∧
    (∀ (s : VideoBooster) (op : BoosterOp),
      endTimeInv s → endTimeInv (applyOp s op)) ∧
    (∀ (s : VideoBooster) (now1 now2 : Int),
      endTimeInv s → get_progress s now1 = get_progress s now2) := by
  refine ⟨?_, applyOp_endTimeInv, ?_⟩
  · intro b c iv tg cd tm t0
    intro _
    rfl
  · intro s now1 now2 hinv
    rcases he : s.end_time with _ | e
    · rw [get_progress, get_progress]
      simp [he, hinv he]
    · rw [get_progress, get_progress]
      simp [he]

/-- Witness for `C8_theorem` on the fresh job `c8Job` at two different
clock reads. -/
theorem C8_witness :
    get_progress c8Job 5 = get_progress c8Job 99 :=
  C8_theorem.2.2 c8Job 5 99 (fun _ => rfl)

/-! ### Claim C9 -/

/-- C9: two-stage cancellation — an interrupt arriving with the cooperative
flag clear sets the flag (so `is_shutdown_requested` turns true) and returns
without terminating the process; an interrupt arriving with the flag already
set runs `sys.exit(1)` immediately. -/
theorem C9_theorem :
    (∀ h : ShutdownHandler,
      is_shutdown_requested h = false →
        handle_signal h = .returned { h with shutdown_requested := true } ∧
        is_shutdown_requested { h with shutdown_requested := true } = true) ∧
    (∀ h : ShutdownHandler,
      is_shutdown_requested h = true → handle_signal h = .exited 1) := by
  constructor
  · intro h hf
    rw [is_shutdown_requested] at hf
    exact ⟨by rw [handle_signal, hf]; rfl, rfl⟩
  · intro h ht
    rw [is_shutdown_requested] at ht
    rw [handle_signal, ht]
    rfl

/-- Witness for `C9_theorem` at the freshly constructed handler and at the
handler whose flag is already set. -/
theorem C9_witness :
    (handle_signal mkShutdownHandler =
       .returned { mkShutdownHandler with shutdown_requested := true } ∧
     is_shutdown_requested { mkShutdownHandler with shutdown_requested := true } = true) ∧
    handle_signal { shutdown_requested := true } = .exited 1 :=
  ⟨C9_theorem.1 mkShutdownHandler rfl, C9_theorem.2 { shutdown_requested := true } rfl⟩

/-! ### Claim C10 -/

theorem vreach_invariant (s : VState) (h : VReachable s) :
    s.validated_count + s.in_flight ≤ s.checked_count := by
  induction h with
  | refl => exact Nat.le_refl 0
  | tail hreach hstep ih =>
    cases hstep with
    | take => simp only; omega
    | probeOk hp => simp only; omega
    | probeFail hp => simp only; omega

/-- C10: in every validator state reachable from construction by any
interleaving of the worker loops, the `get_stats` snapshot satisfies
`validated <= checked` — each worker bumps `checked_count` for a candidate
before it can bump `validated_count` for it, and both counters only grow. -/
theorem C10_theorem :
    ∀ s : VState, VReachable s → (get_stats s).2 ≤ (get_stats s).1 := by
  intro s h
  have hinv := vreach_invariant s h
  rw [get_stats]
  omega

/-- Witness for `C10_theorem`: the state after one candidate was taken and
its probe succeeded is reachable and satisfies the bound. -/
theorem C10_witness :
    (get_stats { checked_count := 1, validated_count := 1, in_flight := 0 }).2 ≤
    (get_stats { checked_count := 1, validated_count := 1, in_flight := 0 }).1 :=
  C10_theorem { checked_count := 1, validated_count := 1, in_flight := 0 }
    (Relation.ReflTransGen.tail
      (Relation.ReflTransGen.tail Relation.ReflTransGen.refl (VStep.take VInit))
      (VStep.probeOk { checked_count := 1, validated_count := 0, in_flight := 1 }
        (by decide)))

/-! ### Helper lemmas about the dispatcher -/

theorem getD_map_is_complete (l : List VideoBooster) (now : Int) (i : Nat)
    (h : i < l.length) :
    (l.map (fun b => (is_complete b now).2)).getD i default =
      (is_complete (l.getD i default) now).2 := by
  have h2 : i < (l.map (fun b => (is_complete b now).2)).length := by simpa using h
  rw [List.getD_eq_getElem _ default h2, List.getD_eq_getElem _ default h]
  simp [List.getElem_map]

theorem gnv_queue (d : JobDispatcher) (now : Int) :
    (get_next_video d now).2.validated_queue = d.validated_queue := by
  rw [get_next_video]
  split <;> rfl

theorem gnv_some (d : JobDispatcher) (now : Int) (i : Nat) (d' : JobDispatcher)
    (h : get_next_video d now = (some i, d')) :
    i < d'.video_boosters.length ∧
    (is_complete (d'.video_boosters.getD i default) now).1 = false := by
  by_cases h0 : (incompleteIdxs d now).length = 0
  · rw [get_next_video, if_pos h0] at h
    exact absurd (congrArg Prod.fst h) (by simp)
  · rw [get_next_video, if_neg h0] at h
    injection h with hfst hsnd
    have hi : (incompleteIdxs d now).getD
        (d.round_robin_index % (incompleteIdxs d now).length) 0 = i := by
      simpa using hfst
    have hr : d.round_robin_index % (incompleteIdxs d now).length <
        (incompleteIdxs d now).length :=
      Nat.mod_lt _ (Nat.pos_of_ne_zero h0)
    have hmem : i ∈ incompleteIdxs d now := by
      rw [← hi, List.getD_eq_getElem _ 0 hr]
      exact List.getElem_mem hr
    rw [incompleteIdxs] at hmem
    have hmem2 := List.mem_filter.mp hmem
    have hirange : i < d.video_boosters.length := List.mem_range.mp hmem2.1
    have hpred : (is_complete (d.video_boosters.getD i default) now).1 = false := by
      simpa using hmem2.2
    have hd' : d'.video_boosters = latchAll d now := by rw [← hsnd]
    have hlen : i < (latchAll d now).length := by
      rw [latchAll, List.length_map]
      exact hirange
    refine ⟨by rw [hd']; exact hlen, ?_⟩
    rw [hd', is_complete_fst, latchAll,
        getD_map_is_complete d.video_boosters now i hirange,
        is_done_is_complete_snd]
    rw [is_complete_fst, List.getD_eq_getElem _ default hirange] at hpred
    rw [List.getD_eq_getElem _ default hirange]
    exact hpred

theorem incompleteIdxs_nil_of_all_done (d : JobDispatcher) (now : Int)
    (h : ∀ b ∈ d.video_boosters, is_done b = true) :
    incompleteIdxs d now = [] := by
  rw [incompleteIdxs]
  apply List.filter_eq_nil_iff.mpr
  intro i hi
  have hilt : i < d.video_boosters.length := List.mem_range.mp hi
  have hb : d.video_boosters.getD i default ∈ d.video_boosters := by
    rw [List.getD_eq_getElem _ default hilt]
    exact List.getElem_mem hilt
  intro hcontra
  rw [is_complete_fst, h _ hb] at hcontra
  simp at hcontra

theorem gnv_none_of_all_done (d : JobDispatcher) (now : Int)
    (h : ∀ b ∈ d.video_boosters, is_done b = true) :
    get_next_video d now = (none, { d with video_boosters := latchAll d now }) := by
  rw [get_next_video, if_pos]
  rw [incompleteIdxs_nil_of_all_done d now h]
  rfl

theorem dispatch_cycle_perm (d : JobDispatcher) (t1 t2 : Int) (ok : Bool) (t3 : Int) :
    List.Perm ((dispatch_cycle d t1 t2 ok t3).1.validated_queue) d.validated_queue := by
  rcases hq : d.validated_queue with _ | ⟨p, rest⟩
  · simp [dispatch_cycle, hq]
  · rcases hg : get_next_video { d with validated_queue := rest } t1 with ⟨o, d'⟩
    have hq' : d'.validated_queue = rest := by
      have hh := gnv_queue { d with validated_queue := rest } t1
      rw [hg] at hh
      exact hh
    cases o with
    | none =>
      simp only [dispatch_cycle, hq, hg]
      rw [hq']
      exact List.perm_append_singleton p rest
    | some i =>
      simp only [dispatch_cycle, hq, hg]
      rw [hq']
      exact List.perm_append_singleton p rest

theorem dispatch_run_perm (l : List CycleInput) (d : JobDispatcher) :
    List.Perm ((dispatch_run d l).validated_queue) d.validated_queue := by
  induction l generalizing d with
  | nil => exact List.Perm.refl _
  | cons inp tl ih =>
    exact List.Perm.trans
      (ih ((dispatch_cycle d inp.tSel inp.tCheck inp.requestOk inp.tStamp).1))
      (dispatch_cycle_perm d inp.tSel inp.tCheck inp.requestOk inp.tStamp)

/-! ### Claim C3 -/

/-- C3 counterexample: the claim that a dispatch worker pushes the resource
back "regardless of the outcome of the attempt (success, cooldown rejection,
error, ...)" fails for the `proxy_consumer` worker of booster.py: with one
eligible proxy in the queue and a POST that raises, the cycle ends with an
empty queue — the resource was removed from the pool. -/
theorem C3_counterexample :
    (proxy_consumer_cycle 300
        { validated_queue := ["1.2.3.4:8080"], successful_hits := 0,
          proxy_cooldown := [] } 1000000 false 1000001).validated_queue.length ≠
      (["1.2.3.4:8080"] : List String).length := by
  decide

/-- C3 (amended): `JobDispatcher.dispatch_worker` pushes the resource back
on every outcome, so one cycle — and hence any number of cycles — preserves
the validated pool up to permutation; the legacy `proxy_consumer` of
booster.py pushes the resource back on the cooldown-rejection and success
outcomes, but drops it from the pool when the POST raises. -/
theorem C3_amended_theorem :
    (∀ (d : JobDispatcher) (t1 t2 : Int) (ok : Bool) (t3 : Int),
      List.Perm ((dispatch_cycle d t1 t2 ok t3).1.validated_queue)
        d.validated_queue) ∧
    (∀ (d : JobDispatcher) (l : List CycleInput),
      List.Perm ((dispatch_run d l).validated_queue) d.validated_queue) ∧
    (∀ (ct : Int) (s : ConsumerState) (now : Int) (ok : Bool) (t2 : Int)
        (p : String) (rest : List String),
      s.validated_queue = p :: rest →
      now - dictGet s.proxy_cooldown p < ct →
      (proxy_consumer_cycle ct s now ok t2).validated_queue = rest ++ [p]) ∧
    (∀ (ct : Int) (s : ConsumerState) (now t2 : Int) (p : String)
        (rest : List String),
      s.validated_queue = p :: rest →
      ct ≤ now - dictGet s.proxy_cooldown p →
      (proxy_consumer_cycle ct s now true t2).validated_queue = rest ++ [p]) ∧
    (∀ (ct : Int) (s : ConsumerState) (now t2 : Int) (p : String)
        (rest : List String),
      s.validated_queue = p :: rest →
      ct ≤ now - dictGet s.proxy_cooldown p →
      (proxy_consumer_cycle ct s now false t2).validated_queue = rest) := by
  refine ⟨dispatch_cycle_perm, fun d l => dispatch_run_perm l d, ?_, ?_, ?_⟩
  · intro ct s now ok t2 p rest hq hcool
    simp only [proxy_consumer_cycle, hq]
    rw [if_pos hcool]
  · intro ct s now t2 p rest hq hcool
    simp only [proxy_consumer_cycle, hq]
    rw [if_neg (by omega)]
    simp
  · intro ct s now t2 p rest hq hcool
    simp only [proxy_consumer_cycle, hq]
    rw [if_neg (by omega)]
    simp

/-- Witness for `C3_amended_theorem`: a concrete error cycle of
`proxy_consumer` keeps only the untouched tail of the queue. -/
theorem C3_witness :
    (proxy_consumer_cycle 300
        { validated_queue := ["1.1.1.1:80", "2.2.2.2:80"], successful_hits := 0,
          proxy_cooldown := [] } 1000 false 1001).validated_queue =
      ["2.2.2.2:80"] :=
  C3_amended_theorem.2.2.2.2 300
    { validated_queue := ["1.1.1.1:80", "2.2.2.2:80"], successful_hits := 0,
      proxy_cooldown := [] } 1000 1001 "1.1.1.1:80" ["2.2.2.2:80"] rfl (by decide)

/-! ### Claim C5 -/

theorem scenario_gnv (q : List String) (rr : Nat) (X : VideoBooster) (t : Int)
    (hX : is_done X = true) :
    get_next_video
        { validated_queue := q, video_boosters := [jobJ1, X],
          round_robin_index := rr } t =
      (some 0,
       { validated_queue := q, video_boosters := [jobJ1, (is_complete X t).2],
         round_robin_index := 1 }) := by
  have h1 : is_done jobJ1 = false := rfl
  have hr2 : List.range 2 = [0, 1] := rfl
  have hidx : incompleteIdxs
      { validated_queue := q, video_boosters := [jobJ1, X],
        round_robin_index := rr } t = [0] := by
    simp [incompleteIdxs, hr2, List.filter_cons, List.getD_cons_zero,
      List.getD_cons_succ, is_complete_fst, hX, h1]
  rw [get_next_video, hidx]
  simp [latchAll, is_complete_snd_of_not_done jobJ1 t h1, Nat.mod_one]

theorem scenario_nth (q : List String) (rr : Nat) (t : Int) (j : Nat)
    (X : VideoBooster) (hX : is_done X = true) :
    nthSelection
      { validated_queue := q, video_boosters := [jobJ1, X],
        round_robin_index := rr } t j = some 0 := by
  induction j generalizing rr X with
  | zero =>
    rw [nthSelection, Function.iterate_zero_apply]
    rw [scenario_gnv q rr X t hX]
  | succ j ih =>
    rw [nthSelection, Function.iterate_succ_apply]
    have hstep : dstep t
        { validated_queue := q, video_boosters := [jobJ1, X],
          round_robin_index := rr } =
        { validated_queue := q, video_boosters := [jobJ1, (is_complete X t).2],
          round_robin_index := 1 } := by
      rw [dstep, scenario_gnv q rr X t hX]
    rw [hstep]
    have hX' : is_done ((is_complete X t).2) = true := by
      rw [is_done_is_complete_snd]
      exact hX
    exact ih 1 ((is_complete X t).2) hX'

/-- C5: the dispatcher never selects a job that is complete at selection
time — a selected index always points at a booster whose `is_complete()` is
false; in the two-job scenario (J1 incomplete forever, J2 complete at
creation) every one of the serialized selections returns J1 (index 0) and
never J2; and when every job is complete the selection returns `None` and
the worker's cycle pushes the resource back unconsumed and takes the
`sleep(0.1)` path (`CycleOutcome.noVideo`). -/
theorem C5_theorem :
    (∀ (d : JobDispatcher) (now : Int) (i : Nat) (d' : JobDispatcher),
      get_next_video d now = (some i, d') →
        i < d'.video_boosters.length ∧
        (is_complete (d'.video_boosters.getD i default) now).1 = false) ∧
    (∀ (q : List String) (rr : Nat) (t : Int) (j : Nat),
      nthSelection
        { validated_queue := q, video_boosters := [jobJ1, jobJ2],
          round_robin_index := rr } t j = some 0) ∧
    (∀ (d : JobDispatcher) (t1 t2 : Int) (ok : Bool) (t3 : Int) (p : String)
        (rest : List String),
      d.validated_queue = p :: rest →
      (∀ b ∈ d.video_boosters, is_done b = true) →
        (dispatch_cycle d t1 t2 ok t3).2 = CycleOutcome.noVideo ∧
        (dispatch_cycle d t1 t2 ok t3).1.validated_queue = rest ++ [p]) := by
  refine ⟨gnv_some, ?_, ?_⟩
  · intro q rr t j
    exact scenario_nth q rr t j jobJ2 rfl
  · intro d t1 t2 ok t3 p rest hq hall
    have hgn := gnv_none_of_all_done { d with validated_queue := rest } t1 hall
    constructor
    · simp only [dispatch_cycle, hq, hgn]
    · simp only [dispatch_cycle, hq, hgn]

/-- Witness for `C5_theorem`: with a single already-complete job, one cycle
takes the no-video path and recycles the proxy. -/
theorem C5_witness :
    (dispatch_cycle
        { validated_queue := ["9.9.9.9:80"], video_boosters := [jobJ2],
          round_robin_index := 0 } 1 2 true 3).2 = CycleOutcome.noVideo ∧
    (dispatch_cycle
        { validated_queue := ["9.9.9.9:80"], video_boosters := [jobJ2],
          round_robin_index := 0 } 1 2 true 3).1.validated_queue =
      [] ++ ["9.9.9.9:80"] :=
  C5_theorem.2.2
    { validated_queue := ["9.9.9.9:80"], video_boosters := [jobJ2],
      round_robin_index := 0 } 1 2 true 3 "9.9.9.9:80" [] rfl
    (by
      intro b hb
      rw [List.mem_singleton] at hb
      subst hb
      rfl)

/-! ### Claim C6 -/

theorem all_incomplete_idxs (d : JobDispatcher) (now : Int)
    (h : ∀ b ∈ d.video_boosters, is_done b = false) :
    incompleteIdxs d now = List.range d.video_boosters.length := by
  rw [incompleteIdxs]
  apply List.filter_eq_self.mpr
  intro i hi
  have hilt := List.mem_range.mp hi
  have hb : d.video_boosters.getD i default ∈ d.video_boosters := by
    rw [List.getD_eq_getElem _ default hilt]
    exact List.getElem_mem hilt
  show (!(is_complete (d.video_boosters.getD i default) now).1) = true
  rw [is_complete_fst, h _ hb]
  rfl

theorem all_incomplete_latchAll (d : JobDispatcher) (now : Int)
    (h : ∀ b ∈ d.video_boosters, is_done b = false) :
    latchAll d now = d.video_boosters := by
  rw [latchAll]
  rw [List.map_congr_left (fun b hb => is_complete_snd_of_not_done b now (h b hb))]
  exact List.map_id' _

theorem all_incomplete_gnv (d : JobDispatcher) (now : Int) (N : Nat)
    (hlen : d.video_boosters.length = N) (hpos : 0 < N)
    (h : ∀ b ∈ d.video_boosters, is_done b = false) :
    get_next_video d now =
      (some (d.round_robin_index % N),
       { d with round_robin_index := d.round_robin_index % N + 1 }) := by
  have hidx := all_incomplete_idxs d now h
  have hilen : (incompleteIdxs d now).length = N := by
    rw [hidx, List.length_range, hlen]
  rw [get_next_video, if_neg (by omega)]
  have hr : d.round_robin_index % N < N := Nat.mod_lt _ hpos
  have hgd : (List.range N).getD (d.round_robin_index % N) 0 =
      d.round_robin_index % N := by
    rw [List.getD_eq_getElem _ 0 (by simpa using hr)]
    exact List.getElem_range _ _
  rw [hilen, hidx, hlen, hgd, all_incomplete_latchAll d now h]

theorem all_incomplete_nth (now : Int) (N : Nat) (hpos : 0 < N) :
    ∀ (j : Nat) (d : JobDispatcher),
      d.video_boosters.length = N →
      (∀ b ∈ d.video_boosters, is_done b = false) →
      nthSelection d now j = some ((d.round_robin_index + j) % N) := by
  intro j
  induction j with
  | zero =>
    intro d hlen hinc
    rw [nthSelection, Function.iterate_zero_apply,
      all_incomplete_gnv d now N hlen hpos hinc]
    simp
  | succ j ih =>
    intro d hlen hinc
    rw [nthSelection, Function.iterate_succ_apply]
    have hstep : dstep now d =
        { d with round_robin_index := d.round_robin_index % N + 1 } := by
      rw [dstep, all_incomplete_gnv d now N hlen hpos hinc]
    rw [hstep]
    have h2 := ih { d with round_robin_index := d.round_robin_index % N + 1 }
      hlen hinc
    have harith : ((d.round_robin_index % N + 1 + j) % N) =
        ((d.round_robin_index + (j + 1)) % N) := by
      have e1 : d.round_robin_index % N + 1 + j =
          d.round_robin_index % N + (1 + j) := by omega
      rw [e1, Nat.mod_add_mod]
      have e2 : d.round_robin_index + (1 + j) = d.round_robin_index + (j + 1) := by
        omega
      rw [e2]
    rw [← harith]
    exact h2

/-- C6: weak round-robin fairness — with N jobs that are all incomplete and
stay incomplete, in every window of N consecutive serialized
`_get_next_video` selections each of the N job indices is produced at least
once, because the shared index is reduced modulo the incomplete-job count
before and incremented by one after every selection. -/
theorem C6_theorem :
    ∀ (d : JobDispatcher) (now : Int) (N : Nat),
      d.video_boosters.length = N → 0 < N →
      (∀ b ∈ d.video_boosters, is_done b = false) →
      ∀ (k i : Nat), i < N →
        ∃ m, k ≤ m ∧ m < k + N ∧ nthSelection d now m = some i := by
  intro d now N hlen hpos hinc k i hi
  have hkeep : ∀ (k : Nat), ((dstep now)^[k] d).video_boosters = d.video_boosters := by
    intro k
    induction k with
    | zero => rfl
    | succ k ihk =>
      rw [Function.iterate_succ_apply']
      have hlen2 : ((dstep now)^[k] d).video_boosters.length = N := by
        rw [ihk]
        exact hlen
      have hinc2 : ∀ b ∈ ((dstep now)^[k] d).video_boosters, is_done b = false := by
        rw [ihk]
        exact hinc
      rw [dstep, all_incomplete_gnv _ now N hlen2 hpos hinc2]
      exact ihk
  have hlenk : ((dstep now)^[k] d).video_boosters.length = N := by
    rw [hkeep k]
    exact hlen
  have hinck : ∀ b ∈ ((dstep now)^[k] d).video_boosters, is_done b = false := by
    rw [hkeep k]
    exact hinc
  have hr : ((dstep now)^[k] d).round_robin_index % N < N := Nat.mod_lt _ hpos
  have hj : (i + N - ((dstep now)^[k] d).round_robin_index % N) % N < N :=
    Nat.mod_lt _ hpos
  refine ⟨(i + N - ((dstep now)^[k] d).round_robin_index % N) % N + k,
    by omega, by omega, ?_⟩
  rw [nthSelection, Function.iterate_add_apply]
  have hnth := all_incomplete_nth now N hpos
    ((i + N - ((dstep now)^[k] d).round_robin_index % N) % N)
    ((dstep now)^[k] d) hlenk hinck
  have harith : (((dstep now)^[k] d).round_robin_index +
      (i + N - ((dstep now)^[k] d).round_robin_index % N) % N) % N = i := by
    rw [Nat.add_mod_mod, ← Nat.mod_add_mod]
    have e : ((dstep now)^[k] d).round_robin_index % N +
        (i + N - ((dstep now)^[k] d).round_robin_index % N) = i + N := by
      omega
    rw [e, Nat.add_mod_right]
    exact Nat.mod_eq_of_lt hi
  rw [harith] at hnth
  exact hnth

/-- Witness for `C6_theorem`: two permanently-incomplete jobs, window
starting at the 4th selection with rotating index 3. -/
theorem C6_witness :
    ∃ m, 4 ≤ m ∧ m < 4 + 2 ∧
      nthSelection
        { validated_queue := [], video_boosters := [jobJ1, c6Job],
          round_robin_index := 3 } 0 m = some 1 :=
  C6_theorem
    { validated_queue := [], video_boosters := [jobJ1, c6Job],
      round_robin_index := 3 } 0 2 rfl (by decide) (by decide) 4 1 (by decide)
